import Mathlib

/-!
Shallow embedding of the weight-loss-challenge competition service.

The repository is a React/Firebase application.  Its computational core is
the per-participant statistics aggregation of
`src/services/competitionService.ts`, the weigh-in upsert against the
document store, the client-side weight validation of the weigh-in page, and
the chart data preparation of the leaderboard chart component.  Weights are
modelled as rationals, dates as integer millisecond timestamps, and the
Firestore weigh-in collection as an association list from document keys to
stored documents.
-/

namespace WeightLossChallenge

/-- A weigh-in record as fetched from the store
(`types` interface `WeighIn`): week number, weight, date (ms), notes. -/
structure WeighIn where
  weekNumber : Nat
  weight : ℚ
  date : ℤ
  notes : String
deriving Repr, DecidableEq

/-- A participant document (`types` interface `Participant`, minus the id
which is carried separately as the document key). -/
structure Participant where
  name : String
  startWeight : ℚ
  joinedAt : ℤ
  isActive : Bool
deriving Repr, DecidableEq

/-- The statistics object returned by the second (authoritative)
`CompetitionService.getUserStats` in `competitionService.ts` (lines
455-495). -/
structure UserStats where
  userId : String
  name : String
  startWeight : ℚ
  currentWeight : ℚ
  totalWeightLoss : ℚ
  totalWeightLossPercentage : ℚ
  averageWeeklyLoss : ℚ
  weeksParticipated : Nat
  lastWeighIn : Option ℤ
deriving Repr, DecidableEq

/-- `CompetitionService.getUserStats` (second class in
`competitionService.ts`, lines 455-495): statistics derived from the
participant document and the weigh-in list ordered by week number (the
order produced by `getWeighIns`, which queries with
`orderBy(weekNumber, asc)`).  The empty list maps to the zero-statistics
object whose current weight is the start weight; otherwise the latest
weigh-in is the last element of the list. -/
def getUserStats (userId : String) (participant : Participant)
    (weighIns : List WeighIn) : UserStats :=
  match weighIns.getLast? with
  | none =>
    { userId := userId
      name := participant.name
      startWeight := participant.startWeight
      currentWeight := participant.startWeight
      totalWeightLoss := 0
      totalWeightLossPercentage := 0
      averageWeeklyLoss := 0
      weeksParticipated := 0
      lastWeighIn := none }
  | some latestWeighIn =>
    let totalWeightLoss := participant.startWeight - latestWeighIn.weight
    let totalWeightLossPercentage := totalWeightLoss / participant.startWeight * 100
    let averageWeeklyLoss := totalWeightLoss / (weighIns.length : ℚ)
    { userId := userId
      name := participant.name
      startWeight := participant.startWeight
      currentWeight := latestWeighIn.weight
      totalWeightLoss := totalWeightLoss
      totalWeightLossPercentage := totalWeightLossPercentage
      averageWeeklyLoss := averageWeeklyLoss
      weeksParticipated := weighIns.length
      lastWeighIn := some latestWeighIn.date }

/-- The statistics object returned by the first
`CompetitionService.getUserStats` in `competitionService.ts` (lines
169-217).  That version never reads the participant document, so it has no
start-weight field of its own. -/
structure UserStatsV1 where
  userId : String
  totalWeighIns : Nat
  currentWeight : ℚ
  totalWeightLoss : ℚ
  totalWeightLossPercentage : ℚ
  weeksParticipated : Nat
deriving Repr, DecidableEq

/-- First `CompetitionService.getUserStats` (lines 169-217): loss is
derived from the FIRST weigh-in of the fetched list
(`weighIns[0].weight`), not from the participant's stored start weight;
with no weigh-ins every numeric field is 0. -/
def getUserStatsV1 (userId : String) (weighIns : List WeighIn) : UserStatsV1 :=
  match weighIns.head?, weighIns.getLast? with
  | some firstWeighIn, some lastWeighIn =>
    let totalLoss := firstWeighIn.weight - lastWeighIn.weight
    { userId := userId
      totalWeighIns := weighIns.length
      currentWeight := lastWeighIn.weight
      totalWeightLoss := totalLoss
      totalWeightLossPercentage := totalLoss / firstWeighIn.weight * 100
      weeksParticipated := weighIns.length }
  | _, _ =>
    { userId := userId
      totalWeighIns := 0
      currentWeight := 0
      totalWeightLoss := 0
      totalWeightLossPercentage := 0
      weeksParticipated := 0 }

/-- Key of a stored weigh-in document: the Firestore path
`competitions/year/participants/userId/weigh-ins/weekNumber`. -/
abbrev DocKey := Nat × String × Nat

/-- The data written by `submitWeighIn` (second class, lines 436-452):
week number, weight, client date, notes.  The server timestamp is assigned
by the backend and carries no client-visible information, so it is not
modelled. -/
structure WeighInDoc where
  weekNumber : Nat
  weight : ℚ
  date : ℤ
  notes : String
deriving Repr, DecidableEq

/-- The weigh-in collection of the document store, as an association list
from document keys to documents. -/
abbrev WeighInStore := List (DocKey × WeighInDoc)

/-- Firestore `setDoc` semantics on the modelled collection: replace the
document at the key when it exists, otherwise create it. -/
def setDoc (store : WeighInStore) (key : DocKey) (data : WeighInDoc) :
    WeighInStore :=
  if store.any (fun kv => decide (kv.1 = key)) then
    store.map (fun kv => if kv.1 = key then (key, data) else kv)
  else
    store ++ [(key, data)]

/-- Firestore `getDoc` on the modelled collection: the first document at
the key, if any. -/
def getDocData (store : WeighInStore) (key : DocKey) : Option WeighInDoc :=
  (store.find? (fun kv => decide (kv.1 = key))).map (fun kv => kv.2)

/-- `CompetitionService.submitWeighIn` (second class, lines 436-452):
`setDoc` of the weigh-in data at the document keyed by the week number
under the participant's weigh-in collection. -/
def submitWeighIn (store : WeighInStore) (year : Nat) (userId : String)
    (weekNumber : Nat) (weight : ℚ) (date : ℤ) (notes : String) :
    WeighInStore :=
  setDoc store (year, userId, weekNumber) ⟨weekNumber, weight, date, notes⟩

/-- One entry pushed by the first `CompetitionService.getAllUserStats`
(lines 125-167). -/
structure AllStatsEntry where
  userId : String
  displayName : String
  totalWeighIns : Nat
  firstWeight : ℚ
  lastWeight : ℚ
  totalWeightLoss : ℚ
  totalWeightLossPercentage : ℚ
  weeksParticipated : Nat
deriving Repr, DecidableEq

/-- The per-participant body of the first `getAllUserStats` loop:
participants with no weigh-ins are skipped, the others contribute an entry
whose loss is first weight minus last weight. -/
def participantEntry (userId displayName : String)
    (weighIns : List WeighIn) : Option AllStatsEntry :=
  match weighIns.head?, weighIns.getLast? with
  | some firstWeighIn, some lastWeighIn =>
    let totalLoss := firstWeighIn.weight - lastWeighIn.weight
    some
      { userId := userId
        displayName := displayName
        totalWeighIns := weighIns.length
        firstWeight := firstWeighIn.weight
        lastWeight := lastWeighIn.weight
        totalWeightLoss := totalLoss
        totalWeightLossPercentage := totalLoss / firstWeighIn.weight * 100
        weeksParticipated := weighIns.length }
  | _, _ => none

/-- The comparator `(a, b) => b.totalWeightLoss - a.totalWeightLoss` of
`getAllUserStats.sort`: `a` may precede `b` exactly when the comparator is
non-positive, i.e. descending total weight loss. -/
def lossDescOrder (a b : AllStatsEntry) : Prop :=
  b.totalWeightLoss ≤ a.totalWeightLoss

instance : DecidableRel lossDescOrder :=
  fun a b => inferInstanceAs (Decidable (b.totalWeightLoss ≤ a.totalWeightLoss))

instance : IsTotal AllStatsEntry lossDescOrder :=
  ⟨fun a b => le_total b.totalWeightLoss a.totalWeightLoss⟩

instance : IsTrans AllStatsEntry lossDescOrder :=
  ⟨fun _ _ _ hab hbc => le_trans hbc hab⟩

/-- First `CompetitionService.getAllUserStats` (lines 125-167): one entry
per participant that has at least one weigh-in, sorted descending by
total weight loss.  A participant is given as
(userId, displayName, weigh-in list). -/
def getAllUserStats (participants : List (String × String × List WeighIn)) :
    List AllStatsEntry :=
  List.insertionSort lossDescOrder
    (participants.filterMap (fun pd => participantEntry pd.1 pd.2.1 pd.2.2))

/-- An entry of `getLeaderboard`: the statistics plus the assigned rank. -/
structure LeaderboardEntry where
  stats : AllStatsEntry
  rank : Nat
deriving Repr, DecidableEq

/-- `CompetitionService.getLeaderboard` (lines 219-225): the sorted
statistics list with `rank: index + 1` spread onto each entry. -/
def getLeaderboard (participants : List (String × String × List WeighIn)) :
    List LeaderboardEntry :=
  (getAllUserStats participants).mapIdx (fun index stat => ⟨stat, index + 1⟩)

/-- The comparator of `CompetitionStats.getTopPerformers`
(`CompetitionStats.tsx` lines 45-49), on the `UserStats` shape the admin
view holds: descending total weight loss. -/
def statsLossDescOrder (a b : UserStats) : Prop :=
  b.totalWeightLoss ≤ a.totalWeightLoss

instance : DecidableRel statsLossDescOrder :=
  fun a b => inferInstanceAs (Decidable (b.totalWeightLoss ≤ a.totalWeightLoss))

instance : IsTotal UserStats statsLossDescOrder :=
  ⟨fun a b => le_total b.totalWeightLoss a.totalWeightLoss⟩

instance : IsTrans UserStats statsLossDescOrder :=
  ⟨fun _ _ _ hab hbc => le_trans hbc hab⟩

/-- `CompetitionStats.getTopPerformers` (`CompetitionStats.tsx` lines
45-49): sort descending by total weight loss, keep the first `limit`
entries (the view calls it with the default limit 5). -/
def getTopPerformers (allStats : List UserStats) (limit : Nat) :
    List UserStats :=
  (List.insertionSort statsLossDescOrder allStats).take limit

/-- Result of the weigh-in page's weight validator: `true` or an error
message string in the source. -/
inductive WeightValidation where
  | valid : WeightValidation
  | invalid : String → WeightValidation
deriving Repr, DecidableEq

/-- `validateWeight` from the weigh-in page (unnamed part_008, lines
105-120): reject non-positive weight, weight above 1000, and a change of
more than 10% against the last weigh-in. -/
def validateWeight (lastWeighIn : Option WeighIn) (value : ℚ) :
    WeightValidation :=
  if value ≤ 0 then
    .invalid "Weight must be greater than 0"
  else if 1000 < value then
    .invalid "Weight seems too high. Please check your entry."
  else
    match lastWeighIn with
    | some lw =>
      let change := |value - lw.weight|
      let percentageChange := change / lw.weight * 100
      if 10 < percentageChange then
        .invalid "Large weight change detected. Please verify your entry."
      else
        .valid
    | none => .valid

/-- Milliseconds per week, the constant `7 * 24 * 60 * 60 * 1000` of
`getCurrentWeek`. -/
def msPerWeek : ℤ := 7 * 24 * 60 * 60 * 1000

/-- `CompetitionService.getCurrentWeek` (lines 516-521): floor the elapsed
milliseconds by one week (JS `Math.floor` on a real quotient is integer
floor division), add 1 and clamp into `[1, 12]`.  `startTime` and
`nowTime` are millisecond timestamps. -/
def getCurrentWeek (startTime nowTime : ℤ) : ℤ :=
  let diffTime := nowTime - startTime
  let diffWeeks := Int.fdiv diffTime msPerWeek
  max 1 (min 12 (diffWeeks + 1))

/-- The weigh-in page submission flow (unnamed part_008): the form value
passes `validateWeight` against the last weigh-in before `onSubmit` calls
`submitWeighIn` with the current week computed from the competition start
date; a validation error leaves the store untouched. -/
def submitWeighInFromPage (store : WeighInStore) (year : Nat)
    (userId : String) (startTime nowTime : ℤ) (lastWeighIn : Option WeighIn)
    (weight : ℚ) (date : ℤ) (notes : String) : WeighInStore :=
  match validateWeight lastWeighIn weight with
  | .valid =>
    submitWeighIn store year userId (getCurrentWeek startTime nowTime).toNat
      weight date notes
  | .invalid _ => store

/-- The invariant the spec asserts about stored weigh-ins: week number in
`[1, 12]` and positive weight. -/
def WeighInStoreValid (store : WeighInStore) : Prop :=
  ∀ kv ∈ store,
    (1 ≤ kv.2.weekNumber ∧ kv.2.weekNumber ≤ 12) ∧ 0 < kv.2.weight

/-- One chart point of `LeaderboardChart.loadChartData` (unnamed part_002,
lines 56-66). -/
structure ChartDataPoint where
  week : Nat
  weight : ℚ
  weightLossPercentage : ℚ
  weightLoss : ℚ
deriving Repr, DecidableEq

/-- The per-weigh-in body of `LeaderboardChart.loadChartData`: the
displayed loss percentage is clamped to be non-negative with
`Math.max(0, ...)`. -/
def chartPointFor (startWeight : ℚ) (weighIn : WeighIn) : ChartDataPoint :=
  let weightLoss := startWeight - weighIn.weight
  let weightLossPercentage := weightLoss / startWeight * 100
  { week := weighIn.weekNumber
    weight := weighIn.weight
    weightLossPercentage := max 0 weightLossPercentage
    weightLoss := weightLoss }

/-- `LeaderboardChart.loadChartData`, per participant: one chart point per
weigh-in. -/
def loadChartData (startWeight : ℚ) (weighIns : List WeighIn) :
    List ChartDataPoint :=
  weighIns.map (chartPointFor startWeight)

/-- C1: for every participant with start weight S > 0 and a non-empty
weigh-in list whose last entry has weight C, `getUserStats` returns
`totalWeightLoss = S - C` and
`totalWeightLossPercentage = (S - C) / S * 100`, for all such (S, C)
pairs, including C > S where the value is negative. -/
theorem getUserStats_loss_formula (userId : String) (p : Participant)
    (ws : List WeighIn) (lastEntry : WeighIn)
    (hS : 0 < p.startWeight) (hlast : ws.getLast? = some lastEntry) :
    (getUserStats userId p ws).totalWeightLoss
        = p.startWeight - lastEntry.weight ∧
    (getUserStats userId p ws).totalWeightLossPercentage
        = (p.startWeight - lastEntry.weight) / p.startWeight * 100 := by
  simp [getUserStats, hlast]

/-- Witness for C1 at S = 220, C = 230 (a gain, C > S): loss is -10 and
the percentage is negative. -/
theorem getUserStats_loss_formula_witness :
    (getUserStats "u1" ⟨"Pat", 220, 0, true⟩ [⟨1, 230, 5, ""⟩]).totalWeightLoss
        = (220 : ℚ) - 230 ∧
    (getUserStats "u1" ⟨"Pat", 220, 0, true⟩
        [⟨1, 230, 5, ""⟩]).totalWeightLossPercentage
        = ((220 : ℚ) - 230) / 220 * 100 :=
  getUserStats_loss_formula "u1" ⟨"Pat", 220, 0, true⟩ [⟨1, 230, 5, ""⟩]
    ⟨1, 230, 5, ""⟩ (by norm_num) rfl

/-- C2: for every participant, `getUserStats` returns an average weekly
loss equal to the total weight loss divided by the number of weigh-in
records, and it is 0 when there are no records (no division by zero: the
zero-record branch returns the constant 0). -/
theorem getUserStats_averageWeeklyLoss_spec (userId : String)
    (p : Participant) (ws : List WeighIn) :
    (getUserStats userId p ws).averageWeeklyLoss
        = (getUserStats userId p ws).totalWeightLoss / (ws.length : ℚ) ∧
    (ws.length = 0 → (getUserStats userId p ws).averageWeeklyLoss = 0) := by
  match h : ws.getLast? with
  | none =>
    have hnil : ws = [] := List.getLast?_eq_none_iff.mp h
    subst hnil
    simp [getUserStats]
  | some lastEntry =>
    have hne : ws ≠ [] := by
      intro hnil
      rw [hnil] at h
      simp at h
    constructor
    · simp [getUserStats, h]
    · intro hlen
      exact absurd (List.length_eq_zero.mp hlen) hne

/-- Witness for C2 at a two-record list: the average is half the total
loss, and the zero-record clause is exercised on the empty list. -/
theorem getUserStats_averageWeeklyLoss_spec_witness :
    ((getUserStats "u2" ⟨"Sam", 200, 0, true⟩
        [⟨1, 198, 1, ""⟩, ⟨2, 195, 2, ""⟩]).averageWeeklyLoss
      = (getUserStats "u2" ⟨"Sam", 200, 0, true⟩
        [⟨1, 198, 1, ""⟩, ⟨2, 195, 2, ""⟩]).totalWeightLoss
          / ((2 : Nat) : ℚ)) ∧
    (getUserStats "u2" ⟨"Sam", 200, 0, true⟩ []).averageWeeklyLoss = 0 :=
  ⟨(getUserStats_averageWeeklyLoss_spec "u2" ⟨"Sam", 200, 0, true⟩
      [⟨1, 198, 1, ""⟩, ⟨2, 195, 2, ""⟩]).1,
    (getUserStats_averageWeeklyLoss_spec "u2" ⟨"Sam", 200, 0, true⟩ []).2 rfl⟩

/-- C3: the end-to-end example: start weight 220.0, weigh-ins for weeks
1-3 of 218.5, 216.0, 215.2 give total loss 4.8, a percentage within 0.005
of 2.18, 3 weeks participated and average weekly loss 1.6. -/
theorem getUserStats_endToEnd_example :
    (getUserStats "u3" ⟨"Alex", 220, 0, true⟩
        [⟨1, 218.5, 1, ""⟩, ⟨2, 216, 2, ""⟩,
          ⟨3, 215.2, 3, ""⟩]).totalWeightLoss = 4.8 ∧
    |(getUserStats "u3" ⟨"Alex", 220, 0, true⟩
        [⟨1, 218.5, 1, ""⟩, ⟨2, 216, 2, ""⟩,
          ⟨3, 215.2, 3, ""⟩]).totalWeightLossPercentage - 2.18| < 5 / 1000 ∧
    (getUserStats "u3" ⟨"Alex", 220, 0, true⟩
        [⟨1, 218.5, 1, ""⟩, ⟨2, 216, 2, ""⟩,
          ⟨3, 215.2, 3, ""⟩]).weeksParticipated = 3 ∧
    (getUserStats "u3" ⟨"Alex", 220, 0, true⟩
        [⟨1, 218.5, 1, ""⟩, ⟨2, 216, 2, ""⟩,
          ⟨3, 215.2, 3, ""⟩]).averageWeeklyLoss = 1.6 := by
  refine ⟨?_, ?_, ?_, ?_⟩ <;>
    norm_num [getUserStats, List.getLast?_cons_cons, List.getLast?_singleton,
      abs_lt]

/-- C4: with zero weigh-in records `getUserStats` returns the start
weight as current weight, and zero total loss, percentage and weeks. -/
theorem getUserStats_noWeighIns (userId : String) (p : Participant)
    (ws : List WeighIn) (h : ws = []) :
    (getUserStats userId p ws).currentWeight = p.startWeight ∧
    (getUserStats userId p ws).totalWeightLoss = 0 ∧
    (getUserStats userId p ws).totalWeightLossPercentage = 0 ∧
    (getUserStats userId p ws).weeksParticipated = 0 := by
  subst h
  simp [getUserStats]

/-- Witness for C4 on a concrete participant with the empty weigh-in
list. -/
theorem getUserStats_noWeighIns_witness :
    (getUserStats "u4" ⟨"Kim", 180, 0, true⟩ []).currentWeight = (180 : ℚ) ∧
    (getUserStats "u4" ⟨"Kim", 180, 0, true⟩ []).totalWeightLoss = 0 ∧
    (getUserStats "u4" ⟨"Kim", 180, 0, true⟩
        []).totalWeightLossPercentage = 0 ∧
    (getUserStats "u4" ⟨"Kim", 180, 0, true⟩ []).weeksParticipated = 0 :=
  getUserStats_noWeighIns "u4" ⟨"Kim", 180, 0, true⟩ [] rfl

/-- C9: the two `getUserStats` implementations disagree: on a participant
whose stored start weight (200) differs from the first weigh-in's weight
(190), the first implementation and the second return different total
losses (10 vs 20) and different percentages. -/
theorem getUserStats_implementations_diverge :
    (⟨"Pat", 200, 0, true⟩ : Participant).startWeight
        ≠ (⟨1, 190, 1, ""⟩ : WeighIn).weight ∧
    (getUserStatsV1 "u9" [⟨1, 190, 1, ""⟩, ⟨2, 180, 2, ""⟩]).totalWeightLoss
        ≠ (getUserStats "u9" ⟨"Pat", 200, 0, true⟩
            [⟨1, 190, 1, ""⟩, ⟨2, 180, 2, ""⟩]).totalWeightLoss ∧
    (getUserStatsV1 "u9"
        [⟨1, 190, 1, ""⟩, ⟨2, 180, 2, ""⟩]).totalWeightLossPercentage
        ≠ (getUserStats "u9" ⟨"Pat", 200, 0, true⟩
            [⟨1, 190, 1, ""⟩, ⟨2, 180, 2, ""⟩]).totalWeightLossPercentage := by
  refine ⟨?_, ?_, ?_⟩ <;>
    norm_num [getUserStats, getUserStatsV1, List.getLast?_cons_cons,
      List.getLast?_singleton]

/-- In the replace branch of `setDoc`, the first document found at the key
is the freshly written one. -/
theorem find?_replace_of_any (key : DocKey) (data : WeighInDoc) :
    ∀ store : WeighInStore,
      store.any (fun kv => decide (kv.1 = key)) = true →
      (store.map (fun kv => if kv.1 = key then (key, data) else kv)).find?
          (fun kv => decide (kv.1 = key)) = some (key, data)
  | [], h => by simp at h
  | kv :: t, h => by
    by_cases hk : kv.1 = key
    · simp [List.find?, hk]
    · have ht : t.any (fun kv => decide (kv.1 = key)) = true := by
        simpa [List.any_cons, hk] using h
      simpa [List.find?, hk] using find?_replace_of_any key data t ht

/-- In the create branch of `setDoc`, the appended document is the one
found at the key. -/
theorem find?_append_of_not_any (key : DocKey) (data : WeighInDoc) :
    ∀ store : WeighInStore,
      store.any (fun kv => decide (kv.1 = key)) = false →
      (store ++ [(key, data)]).find? (fun kv => decide (kv.1 = key))
        = some (key, data)
  | [], _ => by simp [List.find?]
  | kv :: t, h => by
    have hk : ¬kv.1 = key := by
      intro hkk
      simp [List.any_cons, hkk] at h
    have ht : t.any (fun kv => decide (kv.1 = key)) = false := by
      simpa [List.any_cons, hk] using h
    simpa [List.find?, hk] using find?_append_of_not_any key data t ht

/-- `setDoc` makes the written document the one read back at its key. -/
theorem getDocData_setDoc (store : WeighInStore) (key : DocKey)
    (data : WeighInDoc) : getDocData (setDoc store key data) key = some data := by
  unfold getDocData setDoc
  split
  case isTrue h => rw [find?_replace_of_any key data store h]; rfl
  case isFalse h =>
    rw [Bool.not_eq_true] at h
    rw [find?_append_of_not_any key data store h]
    rfl

/-- Replacing the documents at a key does not change how many documents
sit at that key. -/
theorem countP_replace (key : DocKey) (data : WeighInDoc) :
    ∀ store : WeighInStore,
      (store.map (fun kv => if kv.1 = key then (key, data) else kv)).countP
          (fun kv => decide (kv.1 = key))
        = store.countP (fun kv => decide (kv.1 = key))
  | [] => rfl
  | kv :: t => by
    by_cases hk : kv.1 = key <;>
      simp [List.countP_cons, hk, countP_replace key data t]

/-- After a `setDoc` on a store holding at most one document at the key,
exactly one document sits at the key. -/
theorem countP_setDoc (store : WeighInStore) (key : DocKey)
    (data : WeighInDoc)
    (h : store.countP (fun kv => decide (kv.1 = key)) ≤ 1) :
    (setDoc store key data).countP (fun kv => decide (kv.1 = key)) = 1 := by
  unfold setDoc
  split
  case isTrue hany =>
    rw [countP_replace key data store]
    have hpos : 0 < store.countP (fun kv => decide (kv.1 = key)) := by
      rw [List.countP_pos_iff]
      simpa using List.any_eq_true.mp hany
    omega
  case isFalse hany =>
    have hzero : store.countP (fun kv => decide (kv.1 = key)) = 0 := by
      rw [List.countP_eq_zero]
      intro a ha hpa
      exact hany (List.any_eq_true.mpr ⟨a, ha, hpa⟩)
    rw [List.countP_append, hzero]
    simp [List.countP_cons]

/-- C5: submitting a weigh-in twice for the same competition year, user
and week with two different weights leaves exactly one stored record at
that key, and the record read back holds the second weight (last-write
wins). -/
theorem submitWeighIn_lastWriteWins (store : WeighInStore) (year : Nat)
    (userId : String) (w : Nat) (w1 w2 : ℚ) (d1 d2 : ℤ) (n1 n2 : String)
    (hdiff : w1 ≠ w2)
    (hstore : store.countP (fun kv => decide (kv.1 = (year, userId, w))) ≤ 1) :
    ((submitWeighIn (submitWeighIn store year userId w w1 d1 n1)
        year userId w w2 d2 n2).countP
          (fun kv => decide (kv.1 = (year, userId, w))) = 1) ∧
    getDocData
        (submitWeighIn (submitWeighIn store year userId w w1 d1 n1)
          year userId w w2 d2 n2) (year, userId, w)
      = some ⟨w, w2, d2, n2⟩ := by
  constructor
  · unfold submitWeighIn
    apply countP_setDoc
    rw [countP_setDoc store (year, userId, w) ⟨w, w1, d1, n1⟩ hstore]
  · exact getDocData_setDoc _ (year, userId, w) ⟨w, w2, d2, n2⟩

/-- Witness for C5 on the empty store: two submissions for week 5 leave
one record holding the second weight 199. -/
theorem submitWeighIn_lastWriteWins_witness :
    ((submitWeighIn (submitWeighIn [] 2024 "alice" 5 200 10 "a")
        2024 "alice" 5 199 11 "b").countP
          (fun kv => decide (kv.1 = (2024, "alice", 5))) = 1) ∧
    getDocData
        (submitWeighIn (submitWeighIn [] 2024 "alice" 5 200 10 "a")
          2024 "alice" 5 199 11 "b") (2024, "alice", 5)
      = some ⟨5, 199, 11, "b"⟩ :=
  submitWeighIn_lastWriteWins [] 2024 "alice" 5 200 199 10 11 "a" "b"
    (by norm_num) (by simp)

/-- A record of a store touched by `setDoc` is either an old record or
the newly written one. -/
theorem mem_setDoc {store : WeighInStore} {key : DocKey} {data : WeighInDoc}
    {kv : DocKey × WeighInDoc} (h : kv ∈ setDoc store key data) :
    kv ∈ store ∨ kv = (key, data) := by
  unfold setDoc at h
  split at h
  · obtain ⟨x, hx, hmap⟩ := List.mem_map.mp h
    by_cases hk : x.1 = key
    · right
      rw [← hmap, if_pos hk]
    · left
      rw [← hmap, if_neg hk]
      exact hx
  · rcases List.mem_append.mp h with h1 | h2
    · exact Or.inl h1
    · right
      simpa using h2

/-- A weight that passes `validateWeight` is positive: the validator's
first branch rejects every non-positive value. -/
theorem validateWeight_pos (lastWeighIn : Option WeighIn) (value : ℚ)
    (h : validateWeight lastWeighIn value = .valid) : 0 < value := by
  by_contra hneg
  push_neg at hneg
  unfold validateWeight at h
  rw [if_pos hneg] at h
  exact WeightValidation.noConfusion h

/-- `getCurrentWeek` clamps into [1, 12] by construction. -/
theorem getCurrentWeek_mem_Icc (startTime nowTime : ℤ) :
    1 ≤ getCurrentWeek startTime nowTime ∧
      getCurrentWeek startTime nowTime ≤ 12 := by
  unfold getCurrentWeek
  constructor
  · exact le_max_left 1 _
  · exact max_le (by norm_num) (min_le_left 12 _)

/-- C6: the admin statistics are sorted in descending order of total
weight loss — in `getAllUserStats` every earlier entry's loss is at least
every later entry's, `getTopPerformers` (the admin view, with its default
limit 5) is sorted the same way — and `getLeaderboard` assigns each entry
the rank equal to its 1-based position: the rank column reads
1, 2, ..., n. -/
theorem adminStats_sorted_leaderboard_ranked
    (participants : List (String × String × List WeighIn))
    (allStats : List UserStats) :
    List.Pairwise (fun a b => b.totalWeightLoss ≤ a.totalWeightLoss)
      (getAllUserStats participants) ∧
    List.Pairwise (fun a b => b.totalWeightLoss ≤ a.totalWeightLoss)
      (getTopPerformers allStats 5) ∧
    (getLeaderboard participants).map (fun e => e.rank)
      = List.range' 1 (getLeaderboard participants).length := by
  refine ⟨?_, ?_, ?_⟩
  · exact List.sorted_insertionSort lossDescOrder _
  · exact List.Pairwise.sublist (List.take_sublist 5 _)
      (List.sorted_insertionSort statsLossDescOrder allStats)
  · apply List.ext_getElem
    · simp [List.length_range']
    · intro i h1 h2
      simp only [List.getElem_map, List.getElem_range']
      have hi : i < (getLeaderboard participants).length := by
        simpa using h1
      simp only [getLeaderboard, List.getElem_mapIdx]
      omega

/-- C7: the weigh-in page flow rejects a non-positive weight before any
write, and it preserves the stored-weigh-in invariant: every record it
ever creates has a week number in [1, 12] (the submitted week comes from
`getCurrentWeek`, which clamps into that range) and a positive weight
(guarded by `validateWeight`). -/
theorem weighInPage_validation_guards (store : WeighInStore) (year : Nat)
    (userId : String) (startTime nowTime : ℤ) (lastWeighIn : Option WeighIn)
    (weight : ℚ) (date : ℤ) (notes : String)
    (hstore : WeighInStoreValid store) :
    (weight ≤ 0 →
      submitWeighInFromPage store year userId startTime nowTime lastWeighIn
        weight date notes = store) ∧
    WeighInStoreValid
      (submitWeighInFromPage store year userId startTime nowTime lastWeighIn
        weight date notes) := by
  constructor
  · intro hw
    unfold submitWeighInFromPage
    have hv : validateWeight lastWeighIn weight
        = .invalid "Weight must be greater than 0" := by
      unfold validateWeight
      rw [if_pos hw]
    rw [hv]
  · unfold submitWeighInFromPage
    match hval : validateWeight lastWeighIn weight with
    | .invalid msg => exact hstore
    | .valid =>
      intro kv hkv
      unfold submitWeighIn at hkv
      rcases mem_setDoc hkv with hin | heq
      · exact hstore kv hin
      · subst heq
        refine ⟨?_, validateWeight_pos lastWeighIn weight hval⟩
        have hb := getCurrentWeek_mem_Icc startTime nowTime
        dsimp only
        omega

/-- Witness for C7: on the empty (vacuously valid) store, the flow with
weight 150 produces a store still satisfying the invariant, and the
rejection clause is available at that input. -/
theorem weighInPage_validation_guards_witness :
    ((150 : ℚ) ≤ 0 →
      submitWeighInFromPage [] 2024 "bob" 0 0 none 150 3 "" = []) ∧
    WeighInStoreValid (submitWeighInFromPage [] 2024 "bob" 0 0 none 150 3 "") :=
  weighInPage_validation_guards [] 2024 "bob" 0 0 none 150 3 ""
    (by intro kv hkv; simp at hkv)

/-- C8: the leaderboard chart clamps the displayed per-week loss
percentage with `Math.max(0, ...)`, so it is never negative and equals
the clamped signed percentage, while `getUserStats` keeps the signed
value: with start weight 200 and a weigh-in of 210 the chart point shows
0 but `getUserStats` returns -5. -/
theorem leaderboardChart_clamped_vs_userStats_signed :
    (∀ (startWeight : ℚ) (w : WeighIn),
      0 ≤ (chartPointFor startWeight w).weightLossPercentage) ∧
    (∀ (startWeight : ℚ) (w : WeighIn),
      (chartPointFor startWeight w).weightLossPercentage
        = max 0 ((startWeight - w.weight) / startWeight * 100)) ∧
    (chartPointFor 200 ⟨1, 210, 1, ""⟩).weightLossPercentage = 0 ∧
    (getUserStats "u8" ⟨"Pat", 200, 0, true⟩
        [⟨1, 210, 1, ""⟩]).totalWeightLossPercentage = -5 := by
  refine ⟨fun s w => le_max_left 0 _, fun s w => rfl, ?_, ?_⟩
  · norm_num [chartPointFor]
  · norm_num [getUserStats, List.getLast?_singleton]

/-- C10: `getCurrentWeek` always lands in [1, 12]; it is 1 whenever the
current time is before one week past the start (including arbitrarily far
in the past) and 12 whenever at least 11 weeks have elapsed. -/
theorem getCurrentWeek_clamped_range (startTime nowTime : ℤ) :
    (1 ≤ getCurrentWeek startTime nowTime ∧
      getCurrentWeek startTime nowTime ≤ 12) ∧
    (nowTime < startTime + msPerWeek →
      getCurrentWeek startTime nowTime = 1) ∧
    (startTime + 11 * msPerWeek ≤ nowTime →
      getCurrentWeek startTime nowTime = 12) := by
  refine ⟨getCurrentWeek_mem_Icc startTime nowTime, ?_, ?_⟩
  · intro h
    simp only [getCurrentWeek]
    rw [Int.fdiv_eq_ediv _ (by norm_num [msPerWeek])]
    have hdiv : (nowTime - startTime) / msPerWeek ≤ 0 := by
      calc (nowTime - startTime) / msPerWeek
          ≤ (msPerWeek - 1) / msPerWeek :=
            Int.ediv_le_ediv (by norm_num [msPerWeek]) (by omega)
        _ = 0 := by norm_num [msPerWeek]
    omega
  · intro h
    simp only [getCurrentWeek]
    rw [Int.fdiv_eq_ediv _ (by norm_num [msPerWeek])]
    have hdiv : 11 ≤ (nowTime - startTime) / msPerWeek := by
      calc (11 : ℤ) = 11 * msPerWeek / msPerWeek := by norm_num [msPerWeek]
        _ ≤ (nowTime - startTime) / msPerWeek :=
            Int.ediv_le_ediv (by norm_num [msPerWeek]) (by omega)
    omega

/-- Witness for C10: at the start instant the week is 1, and exactly 11
weeks in it is 12. -/
theorem getCurrentWeek_clamped_range_witness :
    getCurrentWeek 0 0 = 1 ∧ getCurrentWeek 0 (11 * msPerWeek) = 12 :=
  ⟨(getCurrentWeek_clamped_range 0 0).2.1 (by norm_num [msPerWeek]),
    (getCurrentWeek_clamped_range 0 (11 * msPerWeek)).2.2 (by norm_num)⟩

end WeightLossChallenge
